import Mathlib

/-!
Verification of the zero_cam capture-and-sync daemon against its design
specification.  The Python sources (camera.py, sync.py, file_manager.py,
main.py) are shallowly embedded: every external effect (a subprocess run, a
directory walk, a remote listing) is an explicit input in a "world" record,
`none` standing for a raised exception (e.g. `subprocess.TimeoutExpired`) and
`some rc` for a completed call with exit code `rc`.  File sets are `Finset
String` of relative paths, exactly as the Python code manipulates `set`s of
relative path strings.
-/

set_option maxRecDepth 8192

namespace ZeroCam

/-- Python `s.startswith(pre)`: `pre` is a prefix of `s`, character-wise. -/
def pyStartsWith (s pre : String) : Bool :=
  pre.data.isPrefixOf s.data

/-- Python `s.split('-')` for the single-character separator `'-'`. -/
def splitOnDash (s : String) : List String :=
  (s.data.foldr (fun c acc =>
    match acc with
    | [] => [[c]]
    | h :: t => if c = '-' then [] :: h :: t else (c :: h) :: t) [[]]).map String.mk

/-- Lexicographic code-point order on character lists, as Python compares
strings. -/
def pyListLt : List Char → List Char → Bool
  | [], [] => false
  | [], _ :: _ => true
  | _ :: _, [] => false
  | a :: as, b :: bs =>
    if a.toNat < b.toNat then true
    else if b.toNat < a.toNat then false
    else pyListLt as bs

/-- Python `a < b` on strings: lexicographic by code point. -/
def pyStrLt (a b : String) : Bool :=
  pyListLt a.data b.data

/-- Python whitespace characters stripped by `str.strip()`. -/
def pyIsSpace (c : Char) : Bool :=
  c = ' ' || c = '\t' || c = '\n' || c = '\r' || c = '\x0b' || c = '\x0c'

/-- Python `str.strip()`: drop leading and trailing whitespace. -/
def pyStrip (s : String) : String :=
  String.mk (((s.data.dropWhile pyIsSpace).reverse.dropWhile pyIsSpace).reverse)

/-- The character mapping of `path.replace('\\', '/')`. -/
def slashChar (c : Char) : Char :=
  if c = '\\' then '/' else c

/-- Python `path.replace('\\', '/')` (sync.py normalises path separators). -/
def normSlashes (s : String) : String :=
  String.mk (s.data.map slashChar)

namespace DropboxSync

/-- The sentinel placeholder file name written by `_ensure_directory_not_empty`
(sync.py line 95); the walks skip any file whose name starts with it. -/
def sentinelName : String := ".pi_cam_sync_placeholder"

/-- One relative path as built inside the directory walks of
`_bidirectional_copy_approach` (sync.py lines 188-197 and 256-265): the walk
yields a pair of `rel_root = os.path.relpath(root, local_dir)` (with `'.'`
replaced by `''`) and a file name; `os.path.join` concatenates with `'/'`
when the root part is nonempty, and separators are normalised. -/
def walkPath (relRoot file : String) : String :=
  if relRoot = "." ∨ relRoot = "" then normSlashes file
  else normSlashes (relRoot ++ "/" ++ file)

/-- The walk keeps a (rel_root, file name) entry unless the file name starts
with the sentinel placeholder name (sync.py lines 194 and 262). -/
def keepEntry (e : String × String) : Bool :=
  !(pyStartsWith e.2 sentinelName)

/-- The local file set computed by a directory walk in
`_bidirectional_copy_approach`: relative paths of all walked files whose name
does not start with the placeholder name. -/
def walkLocalFiles (entries : List (String × String)) : Finset String :=
  ((entries.filter keepEntry).map (fun e => walkPath e.1 e.2)).toFinset

/-- The remote file set parsed from the stdout lines of
`rclone lsf -R remote_dir` (sync.py line 209): each line is stripped and kept
if nonempty. -/
def parseListing (lines : List String) : Finset String :=
  (lines.filterMap (fun l =>
    let t := pyStrip l
    if t = "" then none else some t)).toFinset

/-- `_one_way_sync` (sync.py lines 151-178): runs `rclone sync local remote`;
returns True exactly when the call completes with exit code 0; a raised
exception (modelled by `none`) is caught and yields False. -/
def one_way_sync (run : Option Int) : Bool :=
  match run with
  | none => false
  | some rc => rc == 0

/-- The environment of one `_bidirectional_copy_approach` invocation.  Each
`Option Int` is a subprocess call: `none` models a raised exception (e.g. a
timeout), `some rc` a completed call with exit code `rc`.  The two entry lists
are what the two `os.walk` traversals see; `deleteRun` gives the exit code of
each `rclone deletefile` call; `oneWayRun` is the `rclone sync` call of the
`_one_way_sync` fallback, should it be invoked. -/
structure BidiWorld where
  localEntries : List (String × String)
  listing : Option (Int × List String)
  uploadRun : Option Int
  downloadRun : Option Int
  newLocalEntries : List (String × String)
  deleteRun : String → Int
  oneWayRun : Option Int

/-- Observable trace of one `_bidirectional_copy_approach` invocation:
the two diff sets, which transfer commands were invoked, the set of relative
paths for which `rclone deletefile` was invoked (and the subset whose call
exited 0), whether the code fell back to `_one_way_sync`, and the returned
boolean. -/
structure BidiOutcome where
  need_to_upload : Finset String
  need_to_download : Finset String
  uploadInvoked : Bool
  downloadInvoked : Bool
  deletedCalls : Finset String
  deleteSucceeded : Finset String
  fellBack : Bool
  result : Bool
  deriving DecidableEq

/-- Step 7 of `_bidirectional_copy_approach` (sync.py lines 253-295): only if
files were to be downloaded and the remote listing was nonempty, re-walk the
local directory and invoke `rclone deletefile` for every path of the original
remote set that is absent from the recomputed local set; then return True. -/
def bidiDeleteStep (remote_files : Finset String) (w : BidiWorld) (o : BidiOutcome) :
    BidiOutcome :=
  if o.need_to_download ≠ ∅ ∧ remote_files ≠ ∅ then
    let new_local_files := walkLocalFiles w.newLocalEntries
    let to_delete_remotely := remote_files \ new_local_files
    { o with
      deletedCalls := to_delete_remotely
      deleteSucceeded := to_delete_remotely.filter (fun f => w.deleteRun f = 0)
      result := true }
  else
    { o with result := true }

/-- Step 6 of `_bidirectional_copy_approach` (sync.py lines 236-251): if the
download set is nonempty, run `rclone copy remote local`; a raised exception
propagates to the outer handler which falls back to `_one_way_sync`; a
non-zero exit code is only logged and the protocol continues. -/
def bidiDownloadStep (remote_files : Finset String) (w : BidiWorld) (o : BidiOutcome) :
    BidiOutcome :=
  if o.need_to_download ≠ ∅ then
    match w.downloadRun with
    | none =>
      { o with downloadInvoked := true, fellBack := true,
               result := one_way_sync w.oneWayRun }
    | some _ => bidiDeleteStep remote_files w { o with downloadInvoked := true }
  else bidiDeleteStep remote_files w o

/-- Step 5 of `_bidirectional_copy_approach` (sync.py lines 219-234): if the
upload set is nonempty, run `rclone copy local remote`; a raised exception
propagates to the outer handler which falls back to `_one_way_sync`; a
non-zero exit code is only logged and the protocol continues. -/
def bidiUploadStep (remote_files : Finset String) (w : BidiWorld) (o : BidiOutcome) :
    BidiOutcome :=
  if o.need_to_upload ≠ ∅ then
    match w.uploadRun with
    | none =>
      { o with uploadInvoked := true, fellBack := true,
               result := one_way_sync w.oneWayRun }
    | some _ => bidiDownloadStep remote_files w { o with uploadInvoked := true }
  else bidiDownloadStep remote_files w o

/-- `_bidirectional_copy_approach` (sync.py lines 180-303).  Walk the local
directory; run `rclone lsf -R`: a raised exception is caught by the outer
handler and falls back to `_one_way_sync`, a non-zero exit code returns the
`_one_way_sync` result directly; otherwise diff the two sets and run the
upload, download and reconcile-delete steps. -/
def bidirectional_copy_approach (w : BidiWorld) : BidiOutcome :=
  let local_files := walkLocalFiles w.localEntries
  match w.listing with
  | none =>
    { need_to_upload := ∅, need_to_download := ∅, uploadInvoked := false,
      downloadInvoked := false, deletedCalls := ∅, deleteSucceeded := ∅,
      fellBack := true, result := one_way_sync w.oneWayRun }
  | some (rc, lines) =>
    if rc = 0 then
      let remote_files := parseListing lines
      bidiUploadStep remote_files w
        { need_to_upload := local_files \ remote_files
          need_to_download := remote_files \ local_files
          uploadInvoked := false, downloadInvoked := false
          deletedCalls := ∅, deleteSucceeded := ∅
          fellBack := false, result := false }
    else
      { need_to_upload := ∅, need_to_download := ∅, uploadInvoked := false,
        downloadInvoked := false, deletedCalls := ∅, deleteSucceeded := ∅,
        fellBack := true, result := one_way_sync w.oneWayRun }

/-- The configuration fields of `DropboxSync` read by `sync_directory`. -/
structure SyncConfig where
  remote_name : String
  remote_path : String
  sync_logs : Bool
  bidirectional : Bool
  current_dir : String
  logs_dir : String

/-- `os.path.relpath(path, base)` for the already-normalised directory paths
this program passes: the path either equals the base (giving ".") or extends
it below a '/' separator. -/
def relpathFrom (path base : String) : String :=
  if path = base then "."
  else if pyStartsWith path (base ++ "/") then path.drop (base.length + 1)
  else path

/-- The remote-target resolution of `sync_directory` (sync.py lines 114-136):
directories under `current_dir` map below `remote_name:remote_path`,
directories under `logs_dir` (when log sync is enabled) below
`remote_name:remote_path/logs`, anything else is unrecognised (`none`). -/
def classifyRemoteDir (cfg : SyncConfig) (local_dir : String) : Option String :=
  if pyStartsWith local_dir cfg.current_dir then
    if local_dir = cfg.current_dir then
      some (cfg.remote_name ++ ":" ++ cfg.remote_path)
    else
      some (cfg.remote_name ++ ":" ++ cfg.remote_path ++ "/" ++
        relpathFrom local_dir cfg.current_dir)
  else if pyStartsWith local_dir cfg.logs_dir && cfg.sync_logs then
    if local_dir = cfg.logs_dir then
      some (cfg.remote_name ++ ":" ++ cfg.remote_path ++ "/logs")
    else
      some (cfg.remote_name ++ ":" ++ cfg.remote_path ++ "/logs/" ++
        relpathFrom local_dir cfg.logs_dir)
  else none

/-- The environment of one `sync_directory` invocation: whether the local
directory exists, whether `os.listdir` finds it empty, whether writing the
placeholder file succeeds, the `rclone sync` call of a direct `_one_way_sync`
invocation, and the environment of a `_bidirectional_copy_approach`
invocation. -/
structure SyncDirWorld where
  dirExists : Bool
  listdirEmpty : Bool
  placeholderWriteOk : Bool
  directOneWayRun : Option Int
  bidi : BidiWorld

/-- `_ensure_directory_not_empty` (sync.py lines 88-104): create the directory
if missing; if it is empty, write the placeholder file.  Returns (placeholder
written?, returned boolean). -/
def ensure_directory_not_empty (w : SyncDirWorld) : Bool × Bool :=
  let empty := if w.dirExists then w.listdirEmpty else true
  if empty then
    if w.placeholderWriteOk then (true, true) else (false, false)
  else (false, true)

/-- Observable trace of one `sync_directory` invocation. -/
structure SyncDirOutcome where
  remote_dir : Option String
  placeholderWritten : Bool
  invokedBidi : Bool
  invokedOneWay : Bool
  bidi : Option BidiOutcome
  result : Bool

/-- `sync_directory` (sync.py lines 106-149): skip non-existent directories
(True); resolve the remote target, skipping unrecognised directories (True);
unconditionally ensure the directory is non-empty (this runs in both modes);
then invoke either `_bidirectional_copy_approach` or `_one_way_sync`
according to the `bidirectional` flag. -/
def sync_directory (cfg : SyncConfig) (local_dir : String) (w : SyncDirWorld) :
    SyncDirOutcome :=
  if !w.dirExists then
    { remote_dir := none, placeholderWritten := false, invokedBidi := false,
      invokedOneWay := false, bidi := none, result := true }
  else
    match classifyRemoteDir cfg local_dir with
    | none =>
      { remote_dir := none, placeholderWritten := false, invokedBidi := false,
        invokedOneWay := false, bidi := none, result := true }
    | some rd =>
      let ens := ensure_directory_not_empty w
      if cfg.bidirectional then
        let o := bidirectional_copy_approach w.bidi
        { remote_dir := some rd, placeholderWritten := ens.1, invokedBidi := true,
          invokedOneWay := o.fellBack, bidi := some o, result := o.result }
      else
        { remote_dir := some rd, placeholderWritten := ens.1, invokedBidi := false,
          invokedOneWay := true, bidi := none,
          result := one_way_sync w.directOneWayRun }

end DropboxSync

namespace Camera

/-- Parameter names of `Camera.get_image_filename` besides `self`
(camera.py line 28): the method declares none. -/
def get_image_filename_params : List String := []

/-- Keyword argument names passed at the call site inside `capture_image`
(camera.py line 40): `self.get_image_filename(temp=True)`. -/
def capture_call_kwargs : List String := ["temp"]

/-- Python keyword binding for a method with no varkw: the call binds iff
every keyword argument names a declared parameter; otherwise it raises
TypeError before the method body runs. -/
def kwargsBindOk (params kwargs : List String) : Bool :=
  kwargs.all (fun k => params.contains k)

/-- The environment of one `capture_image` invocation: the filename that
`get_image_filename` would produce, the `rpicam-still` call (`none` =
`subprocess.TimeoutExpired`), and whether the output file exists after the
call. -/
structure CaptureWorld where
  filename : String
  captureRun : Option Int
  outputFileExists : Bool

/-- Observable trace of one `capture_image` invocation: the returned value
(`none` = Python None), whether `rpicam-still` was invoked, and the increment
applied to `capture_count`. -/
structure CaptureOutcome where
  result : Option String
  toolInvoked : Bool
  countDelta : Nat
  deriving DecidableEq

/-- `capture_image` (camera.py lines 36-86).  The first statement calls
`self.get_image_filename(temp=True)`; if that keyword does not bind, the
TypeError is caught by the trailing `except Exception` and None is returned
without running `rpicam-still`.  Otherwise the tool runs: timeout, non-zero
exit or a missing output file yield None; on success the counter is
incremented and the filename returned. -/
def capture_image (w : CaptureWorld) : CaptureOutcome :=
  if !kwargsBindOk get_image_filename_params capture_call_kwargs then
    { result := none, toolInvoked := false, countDelta := 0 }
  else
    match w.captureRun with
    | none => { result := none, toolInvoked := true, countDelta := 0 }
    | some rc =>
      if rc ≠ 0 then { result := none, toolInvoked := true, countDelta := 0 }
      else if !w.outputFileExists then
        { result := none, toolInvoked := true, countDelta := 0 }
      else
        { result := some w.filename, toolInvoked := true, countDelta := 1 }

end Camera

namespace FileManager

/-- Attribute names assigned on `self` by `FileManager.__init__`
(file_manager.py lines 17-32). -/
def initAttrs : List String :=
  ["config", "archive_dir", "logs_dir",
   "archive_retention_days", "log_retention_days", "min_free_space_mb"]

/-- Numeric value of an all-digit string. -/
def digitsVal (s : String) : Nat :=
  s.data.foldl (fun n c => n * 10 + (c.toNat - 48)) 0

/-- The year field of CPython's strptime regex for %Y: exactly four digits. -/
def isYearField (s : String) : Bool :=
  s.length == 4 && s.data.all Char.isDigit

/-- The month field of CPython's strptime regex for %m
(`1[0-2]|0[1-9]|[1-9]`): one or two digits with value 1..12 (zero padding is
optional). -/
def isMonthField (s : String) : Bool :=
  (s.length == 1 || s.length == 2) && s.data.all Char.isDigit
    && decide (1 ≤ digitsVal s) && decide (digitsVal s ≤ 12)

/-- The day field of CPython's strptime regex for %d
(`3[01]|[12]\d|0[1-9]|[1-9]`): one or two digits with value 1..31 (zero
padding is optional). -/
def isDayField (s : String) : Bool :=
  (s.length == 1 || s.length == 2) && s.data.all Char.isDigit
    && decide (1 ≤ digitsVal s) && decide (digitsVal s ≤ 31)

/-- Gregorian leap year rule used by `datetime.date`. -/
def isLeapYear (y : Nat) : Bool :=
  (y % 4 == 0 && y % 100 != 0) || y % 400 == 0

/-- Days in a month as checked by the `datetime.date` constructor. -/
def daysInMonth (y m : Nat) : Nat :=
  if m = 2 then (if isLeapYear y then 29 else 28)
  else if m = 4 ∨ m = 6 ∨ m = 9 ∨ m = 11 then 30
  else 31

/-- `is_date_format` (file_manager.py lines 41-47), i.e.
`datetime.strptime(dirname, "%Y-%m-%d")` succeeding.  CPython compiles the
format to the anchored regex `(\d\d\d\d)-(1[0-2]|0[1-9]|[1-9])-(3[01]|[12]\d|0[1-9]|[1-9])`,
requires it to consume the whole string, and then builds a `datetime.date`,
which raises ValueError unless the year is at least 1 and the day fits the
month.  Since the separator '-' occurs in no field, a full match is exactly a
decomposition into three '-'-separated fields of those shapes. -/
def is_date_format (s : String) : Bool :=
  match splitOnDash s with
  | [y, m, d] =>
    isYearField y && isMonthField m && isDayField d
      && decide (1 ≤ digitsVal y)
      && decide (digitsVal d ≤ daysInMonth (digitsVal y) (digitsVal m))
  | _ => false

/-- One entry of `os.listdir(base_dir)`: its name and whether
`os.path.isdir` holds for it.  (`get_date_dirs` returns the joined paths
`os.path.join(base_dir, item)`; the callers immediately take
`os.path.basename`, which recovers `item` since listdir names contain no
separator, so the model works with the bare names.) -/
structure DirEntry where
  name : String
  isDir : Bool

/-- `get_date_dirs` (file_manager.py lines 49-62): the names of the listed
subdirectories that satisfy `is_date_format`. -/
def get_date_dirs (listing : List DirEntry) : List String :=
  (listing.filter (fun e => e.isDir && is_date_format e.name)).map (fun e => e.name)

/-- `cleanup_old_archives` (file_manager.py lines 115-146): for every dated
directory of the archive listing whose name is lexicographically below the
cutoff date string, `shutil.rmtree` is attempted; the returned list holds the
names whose removal succeeded (`rmOk`). -/
def cleanup_old_archives (cutoff_str : String) (listing : List DirEntry)
    (rmOk : String → Bool) : List String :=
  ((get_date_dirs listing).filter (fun n => pyStrLt n cutoff_str)).filter rmOk

/-- The environment of one `archive_old_directories` invocation: the listing
of the current-images directory, the cutoff date string, and which directory
moves succeed. -/
structure ArchiveWorld where
  currentListing : List DirEntry
  cutoff_str : String
  moveOk : String → Bool

/-- A Python attribute read on `self`: `.error name` models the
AttributeError raised when `name` was never assigned on the instance. -/
def getattrOf (attrs : List String) (name : String) : Except String Unit :=
  if attrs.contains name then Except.ok () else Except.error name

/-- `archive_old_directories` (file_manager.py lines 64-113).  Before any
directory is handled the method reads `self.days_before_archive` (line 69,
outside any try block) and then `self.current_dir` (line 73); an AttributeError
from either propagates to the caller.  Were both reads to succeed, the method
would move every dated directory of the current listing older than the cutoff
into the archive, returning the moved names. -/
def archive_old_directories (attrs : List String) (w : ArchiveWorld) :
    Except String (List String) := do
  _ ← getattrOf attrs "days_before_archive"
  _ ← getattrOf attrs "current_dir"
  _ ← getattrOf attrs "archive_dir"
  pure (((get_date_dirs w.currentListing).filter
    (fun n => pyStrLt n w.cutoff_str)).filter w.moveOk)

end FileManager

namespace Main

/-- Positional parameters of `DropboxSync.__init__` besides `self`
(sync.py line 20): `config, current_dir, logs_dir`. -/
def dropboxSyncParams : List String := ["config", "current_dir", "logs_dir"]

/-- Positional arguments of the construction in `main` (main.py line 278):
`DropboxSync(config, TEMP_DIR, ARCHIVE_DIR, LOGS_DIR)`. -/
def syncCallArgs : List String := ["config", "TEMP_DIR", "ARCHIVE_DIR", "LOGS_DIR"]

/-- Python positional binding for a method with no defaults or varargs: the
call binds iff the argument count equals the parameter count; otherwise it
raises TypeError before the constructor body runs. -/
def posBindOk (params args : List String) : Bool :=
  args.length == params.length

/-- The environment of one `main()` run: whether `safe_mode_delay` returned
True, the `safe_mode_interrupted` flag afterwards, whether the directory or
signal-handler setup raises, whether `Camera(config, TEMP_DIR)` raises,
whether `check_camera` detects a camera, and whether the loop eventually
exits gracefully. -/
structure MainWorld where
  safeModeOk : Bool
  safeModeInterruptedFlag : Bool
  setupRaises : Bool
  cameraInitRaises : Bool
  cameraDetected : Bool

/-- Observable trace of one `main()` run. -/
structure MainOutcome where
  exitCode : Int
  enteredCaptureLoop : Bool
  syncConstructed : Bool
  deriving DecidableEq

/-- `main` (main.py lines 236-366) up to the capture loop: safe-mode exits
return 0; any exception inside the big try block is caught by the top-level
handler (lines 363-366) and returns 1.  After `Camera(config, TEMP_DIR)`
succeeds, `DropboxSync(config, TEMP_DIR, ARCHIVE_DIR, LOGS_DIR)` is
constructed; if that call does not bind, the TypeError reaches the top-level
handler.  Otherwise `check_camera` gates entry into the capture loop. -/
def mainRun (w : MainWorld) : MainOutcome :=
  if !w.safeModeOk then { exitCode := 0, enteredCaptureLoop := false, syncConstructed := false }
  else if w.safeModeInterruptedFlag then
    { exitCode := 0, enteredCaptureLoop := false, syncConstructed := false }
  else if w.setupRaises then
    { exitCode := 1, enteredCaptureLoop := false, syncConstructed := false }
  else if w.cameraInitRaises then
    { exitCode := 1, enteredCaptureLoop := false, syncConstructed := false }
  else if !posBindOk dropboxSyncParams syncCallArgs then
    { exitCode := 1, enteredCaptureLoop := false, syncConstructed := false }
  else if !w.cameraDetected then
    { exitCode := 1, enteredCaptureLoop := false, syncConstructed := true }
  else
    { exitCode := 0, enteredCaptureLoop := true, syncConstructed := true }

end Main

/-!
## Helper lemmas

General facts about the embedded operations, shared by the claim theorems
below.
-/

open DropboxSync

/-- `slashChar` only rewrites backslashes, so a mapped list that equals a list
without slashes or backslashes already equalled it. -/
theorem map_slashChar_eq {l t : List Char} (ht : ∀ d ∈ t, d ≠ '/' ∧ d ≠ '\\')
    (h : l.map slashChar = t) : l = t := by
  induction l generalizing t with
  | nil => simpa using h
  | cons c cs ih =>
    cases t with
    | nil => simp at h
    | cons d ds =>
      simp only [List.map_cons, List.cons.injEq] at h
      obtain ⟨h1, h2⟩ := h
      obtain ⟨hd1, hd2⟩ := ht d (List.mem_cons_self d ds)
      have hcd : c = d := by
        by_cases hc : c = '\\'
        · subst hc
          simp only [slashChar, if_pos rfl] at h1
          exact absurd h1.symm hd1
        · unfold slashChar at h1
          rwa [if_neg hc] at h1
      subst hcd
      exact congrArg (c :: ·) (ih (fun d hd => ht d (List.mem_cons_of_mem _ hd)) h2)

/-- A walk entry that survives the placeholder filter never produces the exact
root-level sentinel path: a path equal to the sentinel name has no separator,
hence comes from a root-level file named exactly like the sentinel, which the
filter drops. -/
theorem walkPath_ne_sentinel (e : String × String) (hk : keepEntry e = true) :
    walkPath e.1 e.2 ≠ sentinelName := by
  have hsent : ∀ d ∈ sentinelName.data, d ≠ '/' ∧ d ≠ '\\' := by decide
  intro hEq
  unfold walkPath at hEq
  by_cases hroot : e.1 = "." ∨ e.1 = ""
  · rw [if_pos hroot] at hEq
    have hdata : e.2.data.map slashChar = sentinelName.data := congrArg String.data hEq
    have he2 : e.2 = sentinelName := String.ext (map_slashChar_eq hsent hdata)
    unfold keepEntry at hk
    rw [he2] at hk
    have hself : pyStartsWith sentinelName sentinelName = true := by decide
    rw [hself] at hk
    simp at hk
  · rw [if_neg hroot] at hEq
    have hmem : '/' ∈ (normSlashes (e.1 ++ "/" ++ e.2)).data := by
      show '/' ∈ ((e.1 ++ "/" ++ e.2).data.map slashChar)
      refine List.mem_map.mpr ⟨'/', ?_, rfl⟩
      rw [String.data_append, String.data_append]
      exact List.mem_append.mpr (Or.inl (List.mem_append.mpr (Or.inr (by decide))))
    rw [hEq] at hmem
    have hno : ('/' : Char) ∉ sentinelName.data := by decide
    exact hno hmem

/-- Every member of a walked file set comes from an entry that passed the
placeholder filter. -/
theorem mem_walkLocalFiles {entries : List (String × String)} {p : String}
    (hp : p ∈ walkLocalFiles entries) :
    ∃ e ∈ entries, keepEntry e = true ∧ p = walkPath e.1 e.2 := by
  unfold walkLocalFiles at hp
  rw [List.mem_toFinset] at hp
  obtain ⟨e, he, hpath⟩ := List.mem_map.mp hp
  exact ⟨e, (List.mem_filter.mp he).1, (List.mem_filter.mp he).2, hpath.symm⟩

/-- The root-level sentinel path is never in a walked local file set. -/
theorem sentinel_notin_walk (entries : List (String × String)) :
    sentinelName ∉ walkLocalFiles entries := by
  intro hmem
  obtain ⟨e, _, hk, hpath⟩ := mem_walkLocalFiles hmem
  exact walkPath_ne_sentinel e hk hpath.symm

/-- Trace of a bidirectional run in which the listing exits 0 and neither
transfer call raises: the diff sets are the two set differences, a transfer is
invoked iff its set is nonempty, the reconcile-delete step (gated on a
nonempty download set and nonempty remote set) deletes the original remote
set minus the recomputed local set, no fallback happens and True is
returned. -/
theorem bidi_ok_run (w : BidiWorld) (lines : List String)
    (hl : w.listing = some (0, lines))
    (hu : w.uploadRun.isSome = true) (hd : w.downloadRun.isSome = true) :
    bidirectional_copy_approach w =
      { need_to_upload := walkLocalFiles w.localEntries \ parseListing lines
        need_to_download := parseListing lines \ walkLocalFiles w.localEntries
        uploadInvoked := decide (walkLocalFiles w.localEntries \ parseListing lines ≠ ∅)
        downloadInvoked := decide (parseListing lines \ walkLocalFiles w.localEntries ≠ ∅)
        deletedCalls :=
          if parseListing lines \ walkLocalFiles w.localEntries ≠ ∅ ∧ parseListing lines ≠ ∅ then
            parseListing lines \ walkLocalFiles w.newLocalEntries
          else ∅
        deleteSucceeded :=
          if parseListing lines \ walkLocalFiles w.localEntries ≠ ∅ ∧ parseListing lines ≠ ∅ then
            (parseListing lines \ walkLocalFiles w.newLocalEntries).filter
              (fun f => w.deleteRun f = 0)
          else ∅
        fellBack := false
        result := true } := by
  obtain ⟨ru, hru⟩ := Option.isSome_iff_exists.mp hu
  obtain ⟨rd, hrd⟩ := Option.isSome_iff_exists.mp hd
  simp only [bidirectional_copy_approach, hl, bidiUploadStep, bidiDownloadStep,
    bidiDeleteStep, hru, hrd]
  split_ifs <;> simp_all

/-- Trace of a bidirectional run whose listing call raises: immediate fallback
to one-way sync. -/
theorem bidi_listing_exc (w : BidiWorld) (hl : w.listing = none) :
    bidirectional_copy_approach w =
      { need_to_upload := ∅, need_to_download := ∅, uploadInvoked := false,
        downloadInvoked := false, deletedCalls := ∅, deleteSucceeded := ∅,
        fellBack := true, result := one_way_sync w.oneWayRun } := by
  simp only [bidirectional_copy_approach, hl]

/-- Trace of a bidirectional run whose listing call exits non-zero: immediate
fallback to one-way sync. -/
theorem bidi_listing_fail (w : BidiWorld) (rc : Int) (lines : List String)
    (hl : w.listing = some (rc, lines)) (hrc : rc ≠ 0) :
    bidirectional_copy_approach w =
      { need_to_upload := ∅, need_to_download := ∅, uploadInvoked := false,
        downloadInvoked := false, deletedCalls := ∅, deleteSucceeded := ∅,
        fellBack := true, result := one_way_sync w.oneWayRun } := by
  simp only [bidirectional_copy_approach, hl, if_neg hrc]

/-- A raised upload call (with a nonempty upload set) falls back to one-way
sync. -/
theorem bidi_upload_exc (w : BidiWorld) (lines : List String)
    (hl : w.listing = some (0, lines)) (hup : w.uploadRun = none)
    (hne : walkLocalFiles w.localEntries \ parseListing lines ≠ ∅) :
    (bidirectional_copy_approach w).fellBack = true ∧
    (bidirectional_copy_approach w).result = one_way_sync w.oneWayRun := by
  simp only [bidirectional_copy_approach, hl, bidiUploadStep, hup]
  simp [hne]

/-- A raised download call (with a nonempty download set) falls back to
one-way sync. -/
theorem bidi_download_exc (w : BidiWorld) (lines : List String)
    (hl : w.listing = some (0, lines)) (hu : w.uploadRun.isSome = true)
    (hdn : w.downloadRun = none)
    (hne : parseListing lines \ walkLocalFiles w.localEntries ≠ ∅) :
    (bidirectional_copy_approach w).fellBack = true ∧
    (bidirectional_copy_approach w).result = one_way_sync w.oneWayRun := by
  obtain ⟨ru, hru⟩ := Option.isSome_iff_exists.mp hu
  simp only [bidirectional_copy_approach, hl, bidiUploadStep, bidiDownloadStep, hru, hdn]
  split_ifs <;> simp_all

/-- Every name returned by `get_date_dirs` satisfies `is_date_format`. -/
theorem is_date_format_of_mem_get_date_dirs {l : List FileManager.DirEntry} {n : String}
    (h : n ∈ FileManager.get_date_dirs l) : FileManager.is_date_format n = true := by
  unfold FileManager.get_date_dirs at h
  obtain ⟨e, he, hn⟩ := List.mem_map.mp h
  have hf := (List.mem_filter.mp he).2
  rw [Bool.and_eq_true] at hf
  exact hn ▸ hf.2

/-!
## Claims
-/

/-- A run refuting the C1 delete-set formula: `a.jpg` is present both locally
and remotely (so not in the download set), the download of `b.jpg` fails, and
the second walk no longer sees `a.jpg`; the code then deletes both remote
files although only `b.jpg` is in the original download set. -/
def c1World : BidiWorld :=
  { localEntries := [(".", "a.jpg")]
    listing := some (0, ["a.jpg", "b.jpg"])
    uploadRun := some 0
    downloadRun := some 1
    newLocalEntries := []
    deleteRun := fun _ => 0
    oneWayRun := some 0 }

/-- C1 counterexample: the reconcile step of `c1World` invokes a per-file
delete for `a.jpg`, a path not in the original `to_download` set, so the
deleted set is not `to_download` minus the recomputed local set. -/
theorem C1_counterexample :
    "a.jpg" ∈ (bidirectional_copy_approach c1World).deletedCalls ∧
    "a.jpg" ∉ (bidirectional_copy_approach c1World).need_to_download ∧
    (bidirectional_copy_approach c1World).deletedCalls ≠
      (bidirectional_copy_approach c1World).need_to_download \
        walkLocalFiles c1World.newLocalEntries := by decide

/-- C1 (amended): in a bidirectional run whose listing exits 0 and whose
transfer calls do not raise, the set of remote paths deleted via per-file
delete is empty when the original `to_download` set is empty and otherwise is
exactly the original *remote* file set minus the recomputed local file set —
a superset of the claimed set (original `to_download` minus the recomputed
local set), which is always contained in the deleted set. -/
theorem C1_theorem (w : BidiWorld) (lines : List String)
    (hl : w.listing = some (0, lines))
    (hu : w.uploadRun.isSome = true) (hd : w.downloadRun.isSome = true) :
    (parseListing lines \ walkLocalFiles w.localEntries) \ walkLocalFiles w.newLocalEntries ⊆
      (bidirectional_copy_approach w).deletedCalls ∧
    (bidirectional_copy_approach w).deletedCalls =
      (if parseListing lines \ walkLocalFiles w.localEntries = ∅ then ∅
       else parseListing lines \ walkLocalFiles w.newLocalEntries) := by
  rw [bidi_ok_run w lines hl hu hd]
  show (parseListing lines \ walkLocalFiles w.localEntries) \ walkLocalFiles w.newLocalEntries ⊆
      (if parseListing lines \ walkLocalFiles w.localEntries ≠ ∅ ∧ parseListing lines ≠ ∅ then
        parseListing lines \ walkLocalFiles w.newLocalEntries
      else ∅) ∧ _
  by_cases hdn : parseListing lines \ walkLocalFiles w.localEntries = ∅
  · rw [if_neg (by simp [hdn]), if_pos hdn]
    simp [hdn]
  · have hrf : parseListing lines ≠ ∅ := by
      obtain ⟨x, hx⟩ := Finset.nonempty_iff_ne_empty.mpr hdn
      exact Finset.ne_empty_of_mem (Finset.mem_sdiff.mp hx).1
    rw [if_pos ⟨hdn, hrf⟩, if_neg hdn]
    refine ⟨fun p hp => ?_, rfl⟩
    rw [Finset.mem_sdiff] at hp ⊢
    exact ⟨(Finset.mem_sdiff.mp hp.1).1, hp.2⟩

/-- A benign run used to instantiate the C1 theorem: one common file, one
remote-only file that downloads successfully. -/
def c1WitnessWorld : BidiWorld :=
  { localEntries := [(".", "keep1.jpg")]
    listing := some (0, ["keep1.jpg", "fetch1.jpg"])
    uploadRun := some 0
    downloadRun := some 0
    newLocalEntries := [(".", "keep1.jpg"), (".", "fetch1.jpg")]
    deleteRun := fun _ => 0
    oneWayRun := some 0 }

/-- C1 witness: the amended C1 theorem evaluated on the concrete run
`c1WitnessWorld`. -/
theorem C1_witness :
    (parseListing ["keep1.jpg", "fetch1.jpg"] \ walkLocalFiles c1WitnessWorld.localEntries) \
        walkLocalFiles c1WitnessWorld.newLocalEntries ⊆
      (bidirectional_copy_approach c1WitnessWorld).deletedCalls ∧
    (bidirectional_copy_approach c1WitnessWorld).deletedCalls =
      (if parseListing ["keep1.jpg", "fetch1.jpg"] \ walkLocalFiles c1WitnessWorld.localEntries = ∅
       then ∅
       else parseListing ["keep1.jpg", "fetch1.jpg"] \ walkLocalFiles c1WitnessWorld.newLocalEntries) :=
  C1_theorem c1WitnessWorld ["keep1.jpg", "fetch1.jpg"] rfl rfl rfl

/-- A run refuting the C2 never-deleted clause: the remote listing contains
the sentinel path, the local directory does not, so the sentinel lands in the
download set and, being invisible to the recomputed local walk, in the
per-file delete set. -/
def c2xWorld : BidiWorld :=
  { localEntries := []
    listing := some (0, [".pi_cam_sync_placeholder", "x.jpg"])
    uploadRun := some 0
    downloadRun := some 0
    newLocalEntries := [(".", "x.jpg"), (".", ".pi_cam_sync_placeholder")]
    deleteRun := fun _ => 0
    oneWayRun := some 0 }

/-- C2 counterexample: in the run `c2xWorld` the sentinel placeholder path is
among the remote paths deleted by the reconcile step, although it is excluded
from both local file sets. -/
theorem C2_counterexample :
    sentinelName ∈ (bidirectional_copy_approach c2xWorld).deletedCalls ∧
    sentinelName ∉ walkLocalFiles c2xWorld.localEntries ∧
    sentinelName ∉ walkLocalFiles c2xWorld.newLocalEntries := by decide

/-- C2 (amended): the sentinel placeholder path is excluded from every walked
local file set (every member of a walked set comes from a file whose name does
not start with the sentinel name), but precisely because it can never be in
the recomputed local set, a sentinel path appearing in the remote listing of a
run with exit-0 listing and non-raising transfers is always among the remote
paths deleted by the reconcile step. -/
theorem C2_theorem (w : BidiWorld) (lines : List String)
    (hl : w.listing = some (0, lines))
    (hu : w.uploadRun.isSome = true) (hd : w.downloadRun.isSome = true) :
    (∀ entries : List (String × String), sentinelName ∉ walkLocalFiles entries) ∧
    (∀ entries : List (String × String), ∀ p ∈ walkLocalFiles entries,
      ∃ e ∈ entries, keepEntry e = true ∧ p = walkPath e.1 e.2) ∧
    (sentinelName ∈ parseListing lines →
      sentinelName ∈ (bidirectional_copy_approach w).deletedCalls) := by
  refine ⟨sentinel_notin_walk, fun entries p hp => mem_walkLocalFiles hp, fun hs => ?_⟩
  rw [bidi_ok_run w lines hl hu hd]
  show sentinelName ∈
    (if parseListing lines \ walkLocalFiles w.localEntries ≠ ∅ ∧ parseListing lines ≠ ∅ then
      parseListing lines \ walkLocalFiles w.newLocalEntries
    else ∅)
  have hdn : sentinelName ∈ parseListing lines \ walkLocalFiles w.localEntries :=
    Finset.mem_sdiff.mpr ⟨hs, sentinel_notin_walk _⟩
  rw [if_pos ⟨Finset.ne_empty_of_mem hdn, Finset.ne_empty_of_mem hs⟩]
  exact Finset.mem_sdiff.mpr ⟨hs, sentinel_notin_walk _⟩

/-- A run used to instantiate the C2 theorem: the remote listing holds the
sentinel and one ordinary file. -/
def c2WitnessWorld : BidiWorld :=
  { localEntries := [(".", "w2.jpg")]
    listing := some (0, [".pi_cam_sync_placeholder", "w2.jpg"])
    uploadRun := some 0
    downloadRun := some 0
    newLocalEntries := [(".", "w2.jpg")]
    deleteRun := fun _ => 0
    oneWayRun := some 0 }

/-- C2 witness: the amended C2 theorem evaluated on `c2WitnessWorld`. -/
theorem C2_witness :
    sentinelName ∈ (bidirectional_copy_approach c2WitnessWorld).deletedCalls :=
  (C2_theorem c2WitnessWorld [".pi_cam_sync_placeholder", "w2.jpg"] rfl rfl rfl).2.2 (by decide)

/-- C3 (amended): a raised listing call, a non-zero listing exit, and raised
upload or download calls each fall back to one-way sync, the invocation then
returning the one-way result; but a *non-zero exit* of an upload or download
transfer call does not fall back — the run continues and returns True.  In
bidirectional mode `sync_directory` returns the protocol result and invokes
one-way sync exactly when the protocol fell back. -/
theorem C3_theorem (w : BidiWorld) :
    (w.listing = none →
      (bidirectional_copy_approach w).fellBack = true ∧
      (bidirectional_copy_approach w).result = one_way_sync w.oneWayRun) ∧
    (∀ rc lines, w.listing = some (rc, lines) → rc ≠ 0 →
      (bidirectional_copy_approach w).fellBack = true ∧
      (bidirectional_copy_approach w).result = one_way_sync w.oneWayRun) ∧
    (∀ lines, w.listing = some (0, lines) → w.uploadRun = none →
      walkLocalFiles w.localEntries \ parseListing lines ≠ ∅ →
      (bidirectional_copy_approach w).fellBack = true ∧
      (bidirectional_copy_approach w).result = one_way_sync w.oneWayRun) ∧
    (∀ lines, w.listing = some (0, lines) → w.uploadRun.isSome = true →
      w.downloadRun = none →
      parseListing lines \ walkLocalFiles w.localEntries ≠ ∅ →
      (bidirectional_copy_approach w).fellBack = true ∧
      (bidirectional_copy_approach w).result = one_way_sync w.oneWayRun) ∧
    (∀ lines, w.listing = some (0, lines) → w.uploadRun.isSome = true →
      w.downloadRun.isSome = true →
      (bidirectional_copy_approach w).fellBack = false ∧
      (bidirectional_copy_approach w).result = true) ∧
    (∀ cfg local_dir (sw : SyncDirWorld) (rd : String), cfg.bidirectional = true →
      sw.dirExists = true → classifyRemoteDir cfg local_dir = some rd →
      (sync_directory cfg local_dir sw).result = (bidirectional_copy_approach sw.bidi).result ∧
      (sync_directory cfg local_dir sw).invokedOneWay =
        (bidirectional_copy_approach sw.bidi).fellBack) := by
  refine ⟨fun hl => ?_, fun rc lines hl hrc => ?_, fun lines hl hup hne => ?_,
    fun lines hl hu hdn hne => ?_, fun lines hl hu hd => ?_,
    fun cfg local_dir sw rd hb hde hcl => ?_⟩
  · rw [bidi_listing_exc w hl]; exact ⟨rfl, rfl⟩
  · rw [bidi_listing_fail w rc lines hl hrc]; exact ⟨rfl, rfl⟩
  · exact bidi_upload_exc w lines hl hup hne
  · exact bidi_download_exc w lines hl hu hdn hne
  · rw [bidi_ok_run w lines hl hu hd]; exact ⟨rfl, rfl⟩
  · simp [sync_directory, hde, hcl, hb]

/-- A run refuting the C3 transfer-failure clause: the upload call exits 1
while one-way sync would have returned False. -/
def c3xWorld : BidiWorld :=
  { localEntries := [(".", "up.jpg")]
    listing := some (0, [])
    uploadRun := some 1
    downloadRun := some 0
    newLocalEntries := [(".", "up.jpg")]
    deleteRun := fun _ => 0
    oneWayRun := some 1 }

/-- C3 counterexample: in the run `c3xWorld` the upload transfer exits
non-zero, yet there is no fallback and the invocation returns True — not the
one-way result, which would be False. -/
theorem C3_counterexample :
    (bidirectional_copy_approach c3xWorld).uploadInvoked = true ∧
    (bidirectional_copy_approach c3xWorld).fellBack = false ∧
    (bidirectional_copy_approach c3xWorld).result = true ∧
    one_way_sync c3xWorld.oneWayRun = false := by decide

/-- A run whose listing exits 1, used to instantiate the C3 theorem. -/
def c3WitnessWorld : BidiWorld :=
  { localEntries := []
    listing := some (1, [])
    uploadRun := some 0
    downloadRun := some 0
    newLocalEntries := []
    deleteRun := fun _ => 0
    oneWayRun := some 0 }

/-- C3 witness: the amended C3 theorem evaluated on the failed-listing run
`c3WitnessWorld`. -/
theorem C3_witness :
    (bidirectional_copy_approach c3WitnessWorld).fellBack = true ∧
    (bidirectional_copy_approach c3WitnessWorld).result = one_way_sync c3WitnessWorld.oneWayRun :=
  (C3_theorem c3WitnessWorld).2.1 1 [] rfl (by decide)

/-- A run refuting the C4 no-deletion clause: `keep.jpg` is present in both
snapshots, the download of `extra.jpg` fails and the second walk sees nothing,
so `keep.jpg` is deleted remotely. -/
def c4xWorld : BidiWorld :=
  { localEntries := [(".", "keep.jpg")]
    listing := some (0, ["keep.jpg", "extra.jpg"])
    uploadRun := some 0
    downloadRun := some 1
    newLocalEntries := []
    deleteRun := fun _ => 0
    oneWayRun := some 0 }

/-- C4 counterexample: in the run `c4xWorld` the path `keep.jpg` is in both
the local and the remote snapshot, yet a per-file remote delete is invoked for
it. -/
theorem C4_counterexample :
    "keep.jpg" ∈ walkLocalFiles c4xWorld.localEntries ∧
    "keep.jpg" ∈ parseListing ["keep.jpg", "extra.jpg"] ∧
    "keep.jpg" ∈ (bidirectional_copy_approach c4xWorld).deletedCalls := by decide

/-- C4 (amended): the diff step computes `need_to_upload` as exactly the local
set minus the remote set and `need_to_download` as exactly the remote set
minus the local set; a path present in both sets is in neither diff set and
triggers no transfer, and it escapes remote deletion provided it is still
present in the recomputed local file set. -/
theorem C4_theorem (w : BidiWorld) (lines : List String)
    (hl : w.listing = some (0, lines))
    (hu : w.uploadRun.isSome = true) (hd : w.downloadRun.isSome = true) :
    (bidirectional_copy_approach w).need_to_upload
        = walkLocalFiles w.localEntries \ parseListing lines ∧
    (bidirectional_copy_approach w).need_to_download
        = parseListing lines \ walkLocalFiles w.localEntries ∧
    ∀ p, p ∈ walkLocalFiles w.localEntries → p ∈ parseListing lines →
      p ∉ (bidirectional_copy_approach w).need_to_upload ∧
      p ∉ (bidirectional_copy_approach w).need_to_download ∧
      (p ∈ walkLocalFiles w.newLocalEntries →
        p ∉ (bidirectional_copy_approach w).deletedCalls) := by
  rw [bidi_ok_run w lines hl hu hd]
  refine ⟨rfl, rfl, fun p hpl hpr => ⟨?_, ?_, fun hpn => ?_⟩⟩
  · show p ∉ walkLocalFiles w.localEntries \ parseListing lines
    simp [Finset.mem_sdiff, hpr]
  · show p ∉ parseListing lines \ walkLocalFiles w.localEntries
    simp [Finset.mem_sdiff, hpl]
  · show p ∉
      (if parseListing lines \ walkLocalFiles w.localEntries ≠ ∅ ∧ parseListing lines ≠ ∅ then
        parseListing lines \ walkLocalFiles w.newLocalEntries
      else ∅)
    split_ifs
    · simp [Finset.mem_sdiff, hpn]
    · simp

/-- A run used to instantiate the C4 theorem: one common file, one local-only
file. -/
def c4WitnessWorld : BidiWorld :=
  { localEntries := [(".", "w4.jpg"), (".", "only4.jpg")]
    listing := some (0, ["w4.jpg"])
    uploadRun := some 0
    downloadRun := some 0
    newLocalEntries := [(".", "w4.jpg"), (".", "only4.jpg")]
    deleteRun := fun _ => 0
    oneWayRun := some 0 }

/-- C4 witness: the amended C4 theorem evaluated on `c4WitnessWorld` at the
common path `w4.jpg`. -/
theorem C4_witness :
    "w4.jpg" ∉ (bidirectional_copy_approach c4WitnessWorld).need_to_upload ∧
    "w4.jpg" ∉ (bidirectional_copy_approach c4WitnessWorld).need_to_download ∧
    ("w4.jpg" ∈ walkLocalFiles c4WitnessWorld.newLocalEntries →
      "w4.jpg" ∉ (bidirectional_copy_approach c4WitnessWorld).deletedCalls) :=
  (C4_theorem c4WitnessWorld ["w4.jpg"] rfl rfl rfl).2.2 "w4.jpg" (by decide) (by decide)

/-- A run refuting the C5 never-deleted clause: `both.jpg` is present on both
sides before the sync, the download of `other.jpg` fails, the second walk sees
nothing, and `both.jpg` is deleted remotely. -/
def c5xWorld : BidiWorld :=
  { localEntries := [(".", "both.jpg")]
    listing := some (0, ["both.jpg", "other.jpg"])
    uploadRun := some 0
    downloadRun := some 1
    newLocalEntries := []
    deleteRun := fun _ => 0
    oneWayRun := some 0 }

/-- C5 counterexample: in the run `c5xWorld` the path `both.jpg` is present in
both pre-sync file sets and is nevertheless deleted remotely by that sync. -/
theorem C5_counterexample :
    "both.jpg" ∈ walkLocalFiles c5xWorld.localEntries ∧
    "both.jpg" ∈ parseListing ["both.jpg", "other.jpg"] ∧
    "both.jpg" ∈ (bidirectional_copy_approach c5xWorld).deletedCalls := by decide

/-- C5 (amended): when the two snapshots are equal, a bidirectional run with
exit-0 listing and non-raising transfers performs zero upload, download and
delete invocations; and in any such run a path present in both snapshots is in
neither transfer set and, provided it is still present in the recomputed local
set, is not deleted. -/
theorem C5_theorem (w : BidiWorld) (lines : List String)
    (hl : w.listing = some (0, lines))
    (hu : w.uploadRun.isSome = true) (hd : w.downloadRun.isSome = true) :
    (walkLocalFiles w.localEntries = parseListing lines →
      (bidirectional_copy_approach w).need_to_upload = ∅ ∧
      (bidirectional_copy_approach w).need_to_download = ∅ ∧
      (bidirectional_copy_approach w).uploadInvoked = false ∧
      (bidirectional_copy_approach w).downloadInvoked = false ∧
      (bidirectional_copy_approach w).deletedCalls = ∅ ∧
      (bidirectional_copy_approach w).deleteSucceeded = ∅) ∧
    (∀ p, p ∈ walkLocalFiles w.localEntries → p ∈ parseListing lines →
      p ∉ (bidirectional_copy_approach w).need_to_upload ∧
      p ∉ (bidirectional_copy_approach w).need_to_download ∧
      (p ∈ walkLocalFiles w.newLocalEntries →
        p ∉ (bidirectional_copy_approach w).deletedCalls)) := by
  rw [bidi_ok_run w lines hl hu hd]
  constructor
  · intro heq
    rw [heq]
    simp
  · refine fun p hpl hpr => ⟨?_, ?_, fun hpn => ?_⟩
    · show p ∉ walkLocalFiles w.localEntries \ parseListing lines
      simp [Finset.mem_sdiff, hpr]
    · show p ∉ parseListing lines \ walkLocalFiles w.localEntries
      simp [Finset.mem_sdiff, hpl]
    · show p ∉
        (if parseListing lines \ walkLocalFiles w.localEntries ≠ ∅ ∧ parseListing lines ≠ ∅ then
          parseListing lines \ walkLocalFiles w.newLocalEntries
        else ∅)
      split_ifs
      · simp [Finset.mem_sdiff, hpn]
      · simp

/-- A run with equal local and remote snapshots, used to instantiate the C5
theorem. -/
def c5WitnessWorld : BidiWorld :=
  { localEntries := [(".", "w5.jpg")]
    listing := some (0, ["w5.jpg"])
    uploadRun := some 0
    downloadRun := some 0
    newLocalEntries := [(".", "w5.jpg")]
    deleteRun := fun _ => 0
    oneWayRun := some 0 }

/-- C5 witness: the amended C5 theorem evaluated on the unchanged-trees run
`c5WitnessWorld`. -/
theorem C5_witness :
    (bidirectional_copy_approach c5WitnessWorld).need_to_upload = ∅ ∧
    (bidirectional_copy_approach c5WitnessWorld).need_to_download = ∅ ∧
    (bidirectional_copy_approach c5WitnessWorld).uploadInvoked = false ∧
    (bidirectional_copy_approach c5WitnessWorld).downloadInvoked = false ∧
    (bidirectional_copy_approach c5WitnessWorld).deletedCalls = ∅ ∧
    (bidirectional_copy_approach c5WitnessWorld).deleteSucceeded = ∅ :=
  (C5_theorem c5WitnessWorld ["w5.jpg"] rfl rfl rfl).1 (by decide)

/-- C6 (amended): in one-way mode `sync_directory` never invokes the
bidirectional protocol and invokes the one-way mirror exactly when the
directory exists and is recognised, returning the mirror result; but empty
directories are not skipped: before the mirror runs, an existing empty
recognised directory gets the sentinel placeholder file written into it. -/
theorem C6_theorem (cfg : SyncConfig) (local_dir : String) (w : SyncDirWorld)
    (hb : cfg.bidirectional = false) :
    (sync_directory cfg local_dir w).invokedBidi = false ∧
    ((sync_directory cfg local_dir w).invokedOneWay = true ↔
      w.dirExists = true ∧ (classifyRemoteDir cfg local_dir).isSome = true) ∧
    ((sync_directory cfg local_dir w).invokedOneWay = true →
      (sync_directory cfg local_dir w).result = one_way_sync w.directOneWayRun) ∧
    (w.dirExists = true → (classifyRemoteDir cfg local_dir).isSome = true →
      w.listdirEmpty = true → w.placeholderWriteOk = true →
      (sync_directory cfg local_dir w).placeholderWritten = true) := by
  cases hde : w.dirExists with
  | false => simp [sync_directory, hde]
  | true =>
    cases hcl : classifyRemoteDir cfg local_dir with
    | none => simp [sync_directory, hde, hcl]
    | some rd =>
      cases hemp : w.listdirEmpty with
      | false => simp [sync_directory, ensure_directory_not_empty, hde, hcl, hb, hemp]
      | true =>
        cases hwr : w.placeholderWriteOk with
        | false => simp [sync_directory, ensure_directory_not_empty, hde, hcl, hb, hemp, hwr]
        | true => simp [sync_directory, ensure_directory_not_empty, hde, hcl, hb, hemp, hwr]

/-- A one-way-mode configuration matching the defaults of sync.py. -/
def c6Cfg : SyncConfig :=
  { remote_name := "dropbox", remote_path := "pi_cam", sync_logs := true,
    bidirectional := false, current_dir := "/home/pi/zero_cam/images/temp",
    logs_dir := "/home/pi/zero_cam/logs" }

/-- An inert bidirectional environment (never reached in one-way mode). -/
def c6BidiWorld : BidiWorld :=
  { localEntries := [], listing := none, uploadRun := none, downloadRun := none,
    newLocalEntries := [], deleteRun := fun _ => 0, oneWayRun := none }

/-- A one-way-mode invocation on an existing empty recognised directory. -/
def c6xWorld : SyncDirWorld :=
  { dirExists := true, listdirEmpty := true, placeholderWriteOk := true,
    directOneWayRun := some 0, bidi := c6BidiWorld }

/-- C6 counterexample: in one-way mode, syncing an existing empty recognised
directory writes the sentinel placeholder file and still invokes the one-way
mirror — the directory is not skipped. -/
theorem C6_counterexample :
    (sync_directory c6Cfg "/home/pi/zero_cam/images/temp" c6xWorld).placeholderWritten = true ∧
    (sync_directory c6Cfg "/home/pi/zero_cam/images/temp" c6xWorld).invokedOneWay = true ∧
    (sync_directory c6Cfg "/home/pi/zero_cam/images/temp" c6xWorld).invokedBidi = false := by
  decide

/-- A one-way-mode invocation on a non-empty dated subdirectory. -/
def c6WitnessWorld : SyncDirWorld :=
  { dirExists := true, listdirEmpty := false, placeholderWriteOk := true,
    directOneWayRun := some 0, bidi := c6BidiWorld }

/-- C6 witness: the amended C6 theorem evaluated on `c6WitnessWorld`. -/
theorem C6_witness :
    (sync_directory c6Cfg "/home/pi/zero_cam/images/temp/2024-01-01" c6WitnessWorld).invokedBidi
        = false ∧
    ((sync_directory c6Cfg "/home/pi/zero_cam/images/temp/2024-01-01" c6WitnessWorld).invokedOneWay
          = true ↔
      c6WitnessWorld.dirExists = true ∧
        (classifyRemoteDir c6Cfg "/home/pi/zero_cam/images/temp/2024-01-01").isSome = true) ∧
    ((sync_directory c6Cfg "/home/pi/zero_cam/images/temp/2024-01-01" c6WitnessWorld).invokedOneWay
          = true →
      (sync_directory c6Cfg "/home/pi/zero_cam/images/temp/2024-01-01" c6WitnessWorld).result
          = one_way_sync c6WitnessWorld.directOneWayRun) ∧
    (c6WitnessWorld.dirExists = true →
      (classifyRemoteDir c6Cfg "/home/pi/zero_cam/images/temp/2024-01-01").isSome = true →
      c6WitnessWorld.listdirEmpty = true → c6WitnessWorld.placeholderWriteOk = true →
      (sync_directory c6Cfg "/home/pi/zero_cam/images/temp/2024-01-01"
        c6WitnessWorld).placeholderWritten = true) :=
  C6_theorem c6Cfg "/home/pi/zero_cam/images/temp/2024-01-01" c6WitnessWorld rfl

/-- C7: the keyword `temp` passed to `get_image_filename` binds to no
parameter of that method, so every `capture_image` invocation raises TypeError
internally, is caught, and returns None without ever invoking the capture tool
or incrementing the successful-capture counter — contrary to the contract that
the output path is returned when the tool exits zero and the file exists. -/
theorem C7_theorem :
    Camera.kwargsBindOk Camera.get_image_filename_params Camera.capture_call_kwargs = false ∧
    ∀ w : Camera.CaptureWorld,
      (Camera.capture_image w).result = none ∧
      (Camera.capture_image w).toolInvoked = false ∧
      (Camera.capture_image w).countDelta = 0 := by
  refine ⟨by decide, fun w => ?_⟩
  unfold Camera.capture_image
  simp [Camera.kwargsBindOk, Camera.get_image_filename_params, Camera.capture_call_kwargs]

/-- The failing input for C7: a run in which the capture tool would exit 0 and
the output file would exist, so the contract demands the path be returned. -/
def c7FailWorld : Camera.CaptureWorld :=
  { filename := "img_20240101_120000.jpg", captureRun := some 0, outputFileExists := true }

/-- Evaluation at the failing input: even on the ideal run `c7FailWorld` the
capture operation returns None, never invokes the tool and leaves the counter
unchanged. -/
theorem capture_ideal_run_eval :
    (Camera.capture_image c7FailWorld).result = none ∧
    (Camera.capture_image c7FailWorld).toolInvoked = false ∧
    (Camera.capture_image c7FailWorld).countDelta = 0 := by decide

/-- C8 counterexample: the dated-directory predicate accepts the
non-zero-padded string `2024-1-1`, which the claim says it rejects. -/
theorem C8_counterexample : FileManager.is_date_format "2024-1-1" = true := by decide

/-- C8 (amended): the dated-directory predicate implements Python strptime's
lenient `%Y-%m-%d`: a four-digit year with a one-or-two-digit month and day in
valid calendar range; it rejects `2024-13-01`, `notadate`, `2024-00-10`,
`2024-02-30` and accepts `2024-01-01` — but also accepts the non-padded
`2024-1-1`; and only names accepted by it are ever removed by archive cleanup
or moved by directory archiving. -/
theorem C8_theorem :
    FileManager.is_date_format "2024-13-01" = false ∧
    FileManager.is_date_format "notadate" = false ∧
    FileManager.is_date_format "2024-1-1" = true ∧
    FileManager.is_date_format "2024-01-01" = true ∧
    FileManager.is_date_format "2024-00-10" = false ∧
    FileManager.is_date_format "2024-02-30" = false ∧
    (∀ cutoff listing rmOk, ∀ n ∈ FileManager.cleanup_old_archives cutoff listing rmOk,
      FileManager.is_date_format n = true) ∧
    (∀ attrs w moved,
      FileManager.archive_old_directories attrs w = Except.ok moved →
      ∀ n ∈ moved, FileManager.is_date_format n = true) := by
  refine ⟨by decide, by decide, by decide, by decide, by decide, by decide,
    fun cutoff listing rmOk n hn => ?_, fun attrs w moved hok n hn => ?_⟩
  · unfold FileManager.cleanup_old_archives at hn
    exact is_date_format_of_mem_get_date_dirs ((List.mem_filter.mp ((List.mem_filter.mp hn).1)).1)
  · unfold FileManager.archive_old_directories FileManager.getattrOf at hok
    split_ifs at hok <;>
      simp only [bind, Except.bind, pure, Except.pure] at hok <;>
      first
        | exact Except.noConfusion hok
        | (rw [Except.ok.injEq] at hok
           rw [← hok] at hn
           exact is_date_format_of_mem_get_date_dirs
             ((List.mem_filter.mp ((List.mem_filter.mp hn).1)).1))

/-- C8 witness: the amended C8 theorem evaluated on a one-entry archive
listing whose dated directory is removed by cleanup. -/
theorem C8_witness :
    FileManager.is_date_format "2024-01-01" = true :=
  C8_theorem.2.2.2.2.2.2.1 "2024-02-01" [⟨"2024-01-01", true⟩] (fun _ => true)
    "2024-01-01" (by decide)

/-- C9: `main` passes four positional arguments to `DropboxSync.__init__`,
which accepts three besides `self`; in every run that survives the safe-mode
delay and whose setup and Camera construction do not raise, the construction
raises TypeError, the capture loop is never entered, and `main` returns exit
code 1 via the top-level fault handler. -/
theorem C9_theorem (w : Main.MainWorld) (h1 : w.safeModeOk = true)
    (h2 : w.safeModeInterruptedFlag = false) (h3 : w.setupRaises = false)
    (h4 : w.cameraInitRaises = false) :
    Main.syncCallArgs.length = 4 ∧ Main.dropboxSyncParams.length = 3 ∧
    Main.posBindOk Main.dropboxSyncParams Main.syncCallArgs = false ∧
    (Main.mainRun w).exitCode = 1 ∧
    (Main.mainRun w).enteredCaptureLoop = false ∧
    (Main.mainRun w).syncConstructed = false := by
  refine ⟨by decide, by decide, by decide, ?_, ?_, ?_⟩ <;>
    simp [Main.mainRun, h1, h2, h3, h4, Main.posBindOk, Main.dropboxSyncParams,
      Main.syncCallArgs]

/-- A run that survives safe mode with a working camera, used to instantiate
the C9 theorem. -/
def c9WitnessWorld : Main.MainWorld :=
  { safeModeOk := true, safeModeInterruptedFlag := false, setupRaises := false,
    cameraInitRaises := false, cameraDetected := true }

/-- C9 witness: the C9 theorem evaluated on `c9WitnessWorld`. -/
theorem C9_witness :
    Main.syncCallArgs.length = 4 ∧ Main.dropboxSyncParams.length = 3 ∧
    Main.posBindOk Main.dropboxSyncParams Main.syncCallArgs = false ∧
    (Main.mainRun c9WitnessWorld).exitCode = 1 ∧
    (Main.mainRun c9WitnessWorld).enteredCaptureLoop = false ∧
    (Main.mainRun c9WitnessWorld).syncConstructed = false :=
  C9_theorem c9WitnessWorld rfl rfl rfl rfl

/-- C10: `FileManager.__init__` assigns neither `days_before_archive` nor
`current_dir`, and for every environment `archive_old_directories` raises
AttributeError on its first read (`days_before_archive`), so it never moves a
directory into the archive tree. -/
theorem C10_theorem (w : FileManager.ArchiveWorld) :
    (FileManager.initAttrs.contains "days_before_archive") = false ∧
    (FileManager.initAttrs.contains "current_dir") = false ∧
    FileManager.archive_old_directories FileManager.initAttrs w =
      Except.error "days_before_archive" :=
  ⟨by decide, by decide, rfl⟩

/-- An archive environment with one dated directory eligible for archiving,
used to instantiate the C10 theorem. -/
def c10WitnessWorld : FileManager.ArchiveWorld :=
  { currentListing := [⟨"2024-01-01", true⟩], cutoff_str := "2024-03-01",
    moveOk := fun _ => true }

/-- C10 witness: the C10 theorem evaluated on `c10WitnessWorld` — even with an
eligible directory present, the call errors out on `days_before_archive`. -/
theorem C10_witness :
    FileManager.archive_old_directories FileManager.initAttrs c10WitnessWorld =
      Except.error "days_before_archive" :=
  (C10_theorem c10WitnessWorld).2.2

end ZeroCam
